import Mathlib

/-!
Verification of the data-loading and query/aggregation layer of the
energy dashboard (`app.py`).

The embedding models the pandas tables as lists of records, dates as the
ISO strings the CSV files contain (compared lexicographically, exactly as
pandas compares the string column), and the float quantities as rationals.
A pandas `groupby(key)[val].agg(...).reset_index()` is rendered as: sort
the distinct keys ascending, and emit one row per key with the aggregate
of the values of the rows having that key — which is pandas' documented
behaviour (`sort=True` by default, absent keys produce no row).

The Dash callbacks of `creer_tableau_bord` are embedded as pure functions
of the data frames they close over; a callback that would raise an
`IndexError` in Python (indexing `dates_triees` out of range) returns
`none`.
-/

/-- A row of `output/data/consommation.csv`. -/
structure ConsRow where
  zone_id : Nat
  zone_nom : String
  niveau : String
  orientation : String
  usage : String
  date : String
  consommation : ℚ
deriving DecidableEq

/-- A row of `output/data/production.csv`. -/
structure ProdRow where
  date : String
  production : ℚ
deriving DecidableEq

/-- A row of `output/data/temperature.csv`. -/
structure TempRow where
  niveau : String
  orientation : String
  date : String
  temperature : ℚ
deriving DecidableEq

/-- A row of `output/data/co2.csv`. -/
structure Co2Row where
  date : String
  co2 : ℚ
deriving DecidableEq

/-- The record of `output/data/metadata.json`. -/
structure Metadata where
  surface_totale : ℚ
  surface_pv : ℚ
  consommation_totale : ℚ
  production_totale : ℚ
  temperature_moyenne : ℚ
  co2_moyen : ℚ
  date_generation : String
deriving DecidableEq

/-- The dict returned by `charger_donnees` on success. -/
structure Dataset where
  consommation : List ConsRow
  production : List ProdRow
  temperature : List TempRow
  co2 : List Co2Row
  metadata : Metadata
deriving DecidableEq

/-- The line printed by `charger_donnees` when a read raises exception `e`. -/
def chargementErreurMsg (e : String) : String :=
  "Erreur lors du chargement des données: " ++ e

/-- The line printed by `charger_donnees` on success. -/
def chargementSuccesMsg : String :=
  "Données chargées avec succès."

/-- `charger_donnees` (app.py lines 22-51): the five reads run in order
inside one `try`; the first one that raises aborts the block, the
exception handler prints the cause and the function returns `None`.
Each read is given as an `Except` (`.error e` models the read raising
exception `e`).  The result is the returned value paired with the printed
output. -/
def charger_donnees (rc : Except String (List ConsRow))
    (rp : Except String (List ProdRow)) (rt : Except String (List TempRow))
    (rco : Except String (List Co2Row)) (rm : Except String Metadata) :
    Option Dataset × List String :=
  match rc with
  | .error e => (none, [chargementErreurMsg e])
  | .ok dfc =>
    match rp with
    | .error e => (none, [chargementErreurMsg e])
    | .ok dfp =>
      match rt with
      | .error e => (none, [chargementErreurMsg e])
      | .ok dft =>
        match rco with
        | .error e => (none, [chargementErreurMsg e])
        | .ok dfco =>
          match rm with
          | .error e => (none, [chargementErreurMsg e])
          | .ok md => (some ⟨dfc, dfp, dft, dfco, md⟩, [chargementSuccesMsg])

/-- Python string `<=`: lexicographic comparison by code point, which is
how pandas compares the ISO date strings read from the CSV files. -/
def strLe (a b : String) : Prop :=
  a.data ≤ b.data

/-- Python string `<`: strict lexicographic comparison by code point. -/
def strLt (a b : String) : Prop :=
  a.data < b.data

instance : DecidableRel strLe := fun a b =>
  inferInstanceAs (Decidable (a.data ≤ b.data))

instance : DecidableRel strLt := fun a b =>
  inferInstanceAs (Decidable (a.data < b.data))

instance : IsTotal String strLe where
  total a b := le_total a.data b.data

instance : IsTrans String strLe where
  trans _ _ _ hab hbc := le_trans hab hbc

/-- `sorted(df["date"].unique())`: the distinct values of a column,
sorted ascending. -/
def datesTriees (dates : List String) : List String :=
  List.insertionSort strLe dates.dedup

/-- The sorted distinct dates of the consumption table (the slider's
domain in `creer_tableau_bord`). -/
def consDates (df : List ConsRow) : List String :=
  datesTriees (df.map fun r => r.date)

/-- pandas `groupby(key)[col].agg(...).reset_index()`: one row per
distinct key, keys sorted ascending by `le`, value `agg` of the rows
having that key.  A key with no row produces no output row. -/
def groupbyAgg {α κ : Type} (le : κ → κ → Prop) [DecidableRel le]
    [DecidableEq κ] (key : α → κ) (agg : List α → ℚ) (rows : List α) :
    List (κ × ℚ) :=
  (List.insertionSort le (rows.map key).dedup).map fun k =>
    (k, agg (rows.filter fun r => decide (key r = k)))

/-- pandas `groupby(key)[col].sum().reset_index()`: the aggregate is the
sum of `val` over the rows of the group. -/
def groupbySum {α κ : Type} (le : κ → κ → Prop) [DecidableRel le]
    [DecidableEq κ] (key : α → κ) (val : α → ℚ) (rows : List α) :
    List (κ × ℚ) :=
  groupbyAgg le key (fun g => (g.map val).sum) rows

/-- pandas `groupby(key)[col].mean().reset_index()`: the aggregate is
the arithmetic mean of `val` over the rows of the group. -/
def groupbyMean {α κ : Type} (le : κ → κ → Prop) [DecidableRel le]
    [DecidableEq κ] (key : α → κ) (val : α → ℚ) (rows : List α) :
    List (κ × ℚ) :=
  groupbyAgg le key (fun g => (g.map val).sum / (g.length : ℚ)) rows

/-- The order pandas sorts a two-column `(date, orientation)` group key
by: date ascending, and for equal dates orientation ascending. -/
def dateOrientLE (a b : String × String) : Prop :=
  strLt a.1 b.1 ∨ (a.1 = b.1 ∧ strLe a.2 b.2)

instance : DecidableRel dateOrientLE := fun a b => by
  unfold dateOrientLE; infer_instance

/-- Two strings are equal when their character lists are. -/
theorem strData_inj {a b : String} (h : a.data = b.data) : a = b := by
  cases a; cases b; exact congrArg String.mk h

instance : IsTotal (String × String) dateOrientLE where
  total a b := by
    rcases lt_trichotomy a.1.data b.1.data with h | h | h
    · exact Or.inl (Or.inl h)
    · rcases le_total a.2.data b.2.data with h2 | h2
      · exact Or.inl (Or.inr ⟨strData_inj h, h2⟩)
      · exact Or.inr (Or.inr ⟨(strData_inj h).symm, h2⟩)
    · exact Or.inr (Or.inl h)

instance : IsTrans (String × String) dateOrientLE where
  trans a b c hab hbc := by
    rcases hab with h1 | ⟨h1, h2⟩ <;> rcases hbc with h3 | ⟨h3, h4⟩
    · exact Or.inl (lt_trans h1 h3)
    · exact Or.inl (h3 ▸ h1)
    · exact Or.inl (h1 ▸ h3)
    · exact Or.inr ⟨h1.trans h3, le_trans h2 h4⟩

/-- The record filter of `update_consommation_orientation` and
`update_tableau_consommations` (app.py lines 277-282): level equal,
usage equal, date within `[date_debut, date_fin]`, both ends
inclusive. -/
def filtre_consommation (df : List ConsRow) (niveau usage date_debut
    date_fin : String) : List ConsRow :=
  df.filter fun r => decide (r.niveau = niveau ∧ r.usage = usage ∧
    strLe date_debut r.date ∧ strLe r.date date_fin)

/-- The aggregation of `update_consommation_orientation` after the date
bounds have been computed (app.py lines 277-284): filter, then
`groupby("orientation")["consommation"].sum()`. -/
def conso_orientation_core (df : List ConsRow) (niveau usage date_debut
    date_fin : String) : List (String × ℚ) :=
  groupbySum strLe (fun r => r.orientation) (fun r => r.consommation)
    (filtre_consommation df niveau usage date_debut date_fin)

/-- `update_consommation_orientation` (app.py lines 272-295): the slider
value `periode` is a pair of indices into the sorted distinct dates of
the consumption table; `dates_triees[periode[0]]` raises `IndexError`
when out of range (modelled as `none`). -/
def update_consommation_orientation (df : List ConsRow) (niveau usage :
    String) (periode : Nat × Nat) : Option (List (String × ℚ)) :=
  let dates := consDates df
  match dates[periode.1]?, dates[periode.2]? with
  | some d0, some d1 => some (conso_orientation_core df niveau usage d0 d1)
  | _, _ => none

/-- `update_evolution_consommation` (app.py lines 303-320): its only
inputs are the level and usage dropdowns — it receives no `periode` and
applies no date filter — then
`groupby(["date", "orientation"])["consommation"].sum()`. -/
def update_evolution_consommation (df : List ConsRow) (niveau usage :
    String) : List ((String × String) × ℚ) :=
  groupbySum dateOrientLE (fun r => (r.date, r.orientation))
    (fun r => r.consommation)
    (df.filter fun r => decide (r.niveau = niveau ∧ r.usage = usage))

/-- The bound selection of `update_production_pv` and
`update_temperature` (app.py lines 329-330, 356-357):
`dates_triees[i] if i < len(dates_triees) else dates_triees[-1]`.
`dates_triees[-1]` on an empty list still raises (modelled `none`). -/
def borneDate (dates : List String) (i : Nat) : Option String :=
  if i < dates.length then dates[i]? else dates.getLast?

/-- The date filter of `update_production_pv` (app.py lines 332-335). -/
def production_core (df : List ProdRow) (date_debut date_fin : String) :
    List ProdRow :=
  df.filter fun r => decide (strLe date_debut r.date ∧ strLe r.date date_fin)

/-- `update_production_pv` (app.py lines 327-346): clamped date bounds
from the production table's own sorted dates, then the inclusive date
filter; no grouping. -/
def update_production_pv (df : List ProdRow) (periode : Nat × Nat) :
    Option (List ProdRow) :=
  let dates := datesTriees (df.map fun r => r.date)
  match borneDate dates periode.1, borneDate dates periode.2 with
  | some d0, some d1 => some (production_core df d0 d1)
  | _, _ => none

/-- The aggregation of `update_temperature` after the date bounds have
been computed (app.py lines 359-365): filter by level and inclusive date
range, then `groupby(["date", "orientation"])["temperature"].mean()`. -/
def temperature_core (df : List TempRow) (niveau date_debut date_fin :
    String) : List ((String × String) × ℚ) :=
  groupbyMean dateOrientLE (fun r => (r.date, r.orientation))
    (fun r => r.temperature)
    (df.filter fun r => decide (r.niveau = niveau ∧
      strLe date_debut r.date ∧ strLe r.date date_fin))

/-- `update_temperature` (app.py lines 354-376): clamped date bounds
from the temperature table's own sorted dates, then the filter and the
mean aggregation. -/
def update_temperature (df : List TempRow) (niveau : String)
    (periode : Nat × Nat) : Option (List ((String × String) × ℚ)) :=
  let dates := datesTriees (df.map fun r => r.date)
  match borneDate dates periode.1, borneDate dates periode.2 with
  | some d0, some d1 => some (temperature_core df niveau d0 d1)
  | _, _ => none

/-- The observable actions of `main` (app.py lines 419-439) after the
load. -/
inductive MainStep where
  | printErreur
  | creerCarte
  | copieCarte
  | creerTableau
  | runServer
deriving DecidableEq

/-- `main` (app.py lines 419-439): when the loader returned `None` it
prints the error message and returns; otherwise it builds the map,
copies it to `assets`, builds the dashboard and launches it.  (Named
`main_fn`: `main` is reserved in Lean.) -/
def main_fn (donnees : Option Dataset) : List MainStep :=
  match donnees with
  | none => [MainStep.printErreur]
  | some _ => [MainStep.creerCarte, MainStep.copieCarte,
      MainStep.creerTableau, MainStep.runServer]

/-- The §8 example consumption table: two records on 2024-01-01,
level floor-1, usage lighting, 10 kWh facing N and 5 kWh facing S. -/
def exempleConso : List ConsRow :=
  [⟨1, "Zone Nord", "floor-1", "N", "lighting", "2024-01-01", 10⟩,
   ⟨2, "Zone Sud", "floor-1", "S", "lighting", "2024-01-01", 5⟩]

example : consDates exempleConso = ["2024-01-01"] := by decide

example : update_consommation_orientation exempleConso "floor-1"
    "lighting" (0, 0) = some [("N", 10), ("S", 5)] := by
  norm_num +decide [update_consommation_orientation, consDates,
    datesTriees, conso_orientation_core, filtre_consommation, groupbySum,
    groupbyAgg, exempleConso, List.dedup, List.pwFilter,
    List.insertionSort, List.orderedInsert, List.filter]

/-!
## General facts about the groupby embedding
-/

/-- Row membership in a pandas groupby result: `(k, v)` is an output row
exactly when some input row has key `k` and `v` is the aggregate of the
rows with key `k`. -/
theorem mem_groupbyAgg {α κ : Type} (le : κ → κ → Prop) [DecidableRel le]
    [DecidableEq κ] (key : α → κ) (agg : List α → ℚ) (rows : List α)
    (k : κ) (v : ℚ) :
    (k, v) ∈ groupbyAgg le key agg rows ↔
      k ∈ rows.map key ∧ v = agg (rows.filter fun r => decide (key r = k)) := by
  unfold groupbyAgg
  simp only [List.mem_map, Prod.mk.injEq]
  constructor
  · rintro ⟨k2, hk2, rfl, rfl⟩
    refine ⟨?_, rfl⟩
    exact List.mem_map.mp
      (List.mem_dedup.mp ((List.perm_insertionSort le _).mem_iff.mp hk2))
  · rintro ⟨hk, rfl⟩
    refine ⟨k, ?_, rfl, rfl⟩
    rw [(List.perm_insertionSort le _).mem_iff, List.mem_dedup]
    exact List.mem_map.mpr hk

/-- The first column of a groupby result is the sorted list of the
distinct keys. -/
theorem groupbyAgg_keys {α κ : Type} (le : κ → κ → Prop) [DecidableRel le]
    [DecidableEq κ] (key : α → κ) (agg : List α → ℚ) (rows : List α) :
    (groupbyAgg le key agg rows).map Prod.fst =
      List.insertionSort le (rows.map key).dedup := by
  unfold groupbyAgg
  simp [List.map_map, Function.comp_def]

/-- A groupby result mentions each key at most once. -/
theorem groupbyAgg_keys_nodup {α κ : Type} (le : κ → κ → Prop)
    [DecidableRel le] [DecidableEq κ] (key : α → κ) (agg : List α → ℚ)
    (rows : List α) : ((groupbyAgg le key agg rows).map Prod.fst).Nodup := by
  rw [groupbyAgg_keys]
  exact ((List.perm_insertionSort le _).nodup_iff).mpr (List.nodup_dedup _)

/-- A groupby result lists its keys in ascending `le` order. -/
theorem groupbyAgg_keys_sorted {α κ : Type} (le : κ → κ → Prop)
    [DecidableRel le] [DecidableEq κ] [IsTotal κ le] [IsTrans κ le]
    (key : α → κ) (agg : List α → ℚ) (rows : List α) :
    List.Sorted le ((groupbyAgg le key agg rows).map Prod.fst) := by
  rw [groupbyAgg_keys]
  exact List.sorted_insertionSort le _

/-- Filtering twice with `decide`d predicates is filtering once with the
conjunction. -/
theorem filter_decide_filter_decide {α : Type} (p q : α → Prop)
    [DecidablePred p] [DecidablePred q] (l : List α) :
    ((l.filter fun a => decide (q a)).filter fun a => decide (p a)) =
      l.filter fun a => decide (q a ∧ p a) := by
  rw [List.filter_filter]
  apply List.filter_congr
  intro a _
  simp [Bool.and_comm]

/-- When both slider indices are in range, the consumption-by-orientation
callback returns the filtered and grouped rows for the corresponding date
bounds. -/
theorem update_consommation_orientation_some (df : List ConsRow)
    (niveau usage : String) (i j : ℕ) (d0 d1 : String)
    (h0 : (consDates df)[i]? = some d0) (h1 : (consDates df)[j]? = some d1) :
    update_consommation_orientation df niveau usage (i, j) =
      some (conso_orientation_core df niveau usage d0 d1) := by
  unfold update_consommation_orientation
  simp only [h0, h1]

/-- Membership in the consumption-by-orientation aggregate, phrased over
the raw records of the table. -/
theorem mem_conso_orientation_core (df : List ConsRow)
    (niveau usage d0 d1 : String) (o : String) (t : ℚ) :
    (o, t) ∈ conso_orientation_core df niveau usage d0 d1 ↔
      ((∃ r ∈ df, r.niveau = niveau ∧ r.usage = usage ∧ strLe d0 r.date ∧
          strLe r.date d1 ∧ r.orientation = o) ∧
       t = ((df.filter fun r => decide (r.niveau = niveau ∧
              r.usage = usage ∧ strLe d0 r.date ∧ strLe r.date d1 ∧
              r.orientation = o)).map fun r => r.consommation).sum) := by
  unfold conso_orientation_core groupbySum
  have hfilt : ((filtre_consommation df niveau usage d0 d1).filter fun r =>
      decide (r.orientation = o)) = df.filter fun r =>
      decide (r.niveau = niveau ∧ r.usage = usage ∧ strLe d0 r.date ∧
        strLe r.date d1 ∧ r.orientation = o) := by
    unfold filtre_consommation
    rw [filter_decide_filter_decide]
    apply List.filter_congr
    intro a _
    rw [decide_eq_decide]
    tauto
  rw [mem_groupbyAgg, hfilt]
  refine and_congr ?_ Iff.rfl
  simp only [filtre_consommation, List.mem_map, List.mem_filter,
    decide_eq_true_eq]
  constructor
  · rintro ⟨r, ⟨hr, h2, h3, h4, h5⟩, h6⟩
    exact ⟨r, hr, h2, h3, h4, h5, h6⟩
  · rintro ⟨r, hr, h2, h3, h4, h5, h6⟩
    exact ⟨r, ⟨hr, h2, h3, h4, h5⟩, h6⟩

/-- C1: for every table and every valid slider range, the
consumption-by-orientation query returns, for each orientation, the sum
of `consommation` over exactly the records matching level, usage and the
inclusive date range — each orientation listed once — and on the §8
two-record example with level floor-1, usage lighting and the one-day
range 2024-01-01..2024-01-01 it returns [("N", 10.0), ("S", 5.0)]. -/
theorem C1_consommation_par_orientation :
    (∀ (df : List ConsRow) (niveau usage : String) (i j : ℕ)
      (d0 d1 : String),
      (consDates df)[i]? = some d0 →
      (consDates df)[j]? = some d1 →
      ∃ res, update_consommation_orientation df niveau usage (i, j) =
          some res ∧
        (res.map Prod.fst).Nodup ∧
        (∀ o t, (o, t) ∈ res ↔
          ((∃ r ∈ df, r.niveau = niveau ∧ r.usage = usage ∧
              strLe d0 r.date ∧ strLe r.date d1 ∧ r.orientation = o) ∧
           t = ((df.filter fun r => decide (r.niveau = niveau ∧
                  r.usage = usage ∧ strLe d0 r.date ∧ strLe r.date d1 ∧
                  r.orientation = o)).map fun r => r.consommation).sum))) ∧
    update_consommation_orientation exempleConso "floor-1" "lighting"
      (0, 0) = some [("N", 10), ("S", 5)] := by
  constructor
  · intro df niveau usage i j d0 d1 h0 h1
    refine ⟨conso_orientation_core df niveau usage d0 d1,
      update_consommation_orientation_some df niveau usage i j d0 d1 h0 h1,
      ?_, ?_⟩
    · exact groupbyAgg_keys_nodup strLe (fun r : ConsRow => r.orientation)
        (fun g => (g.map fun r => r.consommation).sum)
        (filtre_consommation df niveau usage d0 d1)
    · intro o t
      exact mem_conso_orientation_core df niveau usage d0 d1 o t
  · norm_num +decide [update_consommation_orientation, consDates,
      datesTriees, conso_orientation_core, filtre_consommation, groupbySum,
      groupbyAgg, exempleConso, List.dedup, List.pwFilter,
      List.insertionSort, List.orderedInsert, List.filter]

/-- A two-day consumption table used to exhibit the missing date filter
of the time-series callback: one matching record on 2024-01-01 and one
on 2024-01-02. -/
def deuxJoursConso : List ConsRow :=
  [⟨1, "Zone Nord", "floor-1", "N", "lighting", "2024-01-01", 4⟩,
   ⟨1, "Zone Nord", "floor-1", "N", "lighting", "2024-01-02", 7⟩]

/-- C2 as stated is false: with the one-day range
2024-01-01..2024-01-01, the time-series callback still returns the row
of 2024-01-02, whose date is outside the inclusive range — it applies no
date filter at all. -/
theorem C2_counterexample :
    update_evolution_consommation deuxJoursConso "floor-1" "lighting" =
      [(("2024-01-01", "N"), 4), (("2024-01-02", "N"), 7)] ∧
    ¬ strLe "2024-01-02" "2024-01-01" := by
  constructor
  · norm_num +decide [update_evolution_consommation, groupbySum,
      groupbyAgg, deuxJoursConso, List.filter, List.dedup, List.pwFilter,
      List.insertionSort, List.orderedInsert]
  · decide

/-- C2 amended: the time-series callback receives only the level and
usage (no date range) and applies no date filter; it filters records by
level and usage exactly, groups the filtered records by
(date, orientation) summing `consommation`, and returns the rows sorted
by date ascending and, for equal dates, by orientation ascending, one
row per (date, orientation) pair present. -/
theorem C2_evolution_consommation :
    ∀ (df : List ConsRow) (niveau usage : String),
      ((update_evolution_consommation df niveau usage).map Prod.fst).Nodup ∧
      List.Sorted dateOrientLE
        ((update_evolution_consommation df niveau usage).map Prod.fst) ∧
      ∀ d o t, ((d, o), t) ∈ update_evolution_consommation df niveau usage ↔
        ((∃ r ∈ df, r.niveau = niveau ∧ r.usage = usage ∧ r.date = d ∧
            r.orientation = o) ∧
         t = ((df.filter fun r => decide (r.niveau = niveau ∧
                r.usage = usage ∧ r.date = d ∧ r.orientation = o)).map
              fun r => r.consommation).sum) := by
  intro df niveau usage
  unfold update_evolution_consommation groupbySum
  refine ⟨groupbyAgg_keys_nodup _ _ _ _, groupbyAgg_keys_sorted _ _ _ _, ?_⟩
  intro d o t
  have hfilt : ((df.filter fun r => decide (r.niveau = niveau ∧
      r.usage = usage)).filter fun r =>
      decide ((r.date, r.orientation) = (d, o))) = df.filter fun r =>
      decide (r.niveau = niveau ∧ r.usage = usage ∧ r.date = d ∧
        r.orientation = o) := by
    rw [filter_decide_filter_decide]
    apply List.filter_congr
    intro a _
    rw [decide_eq_decide]
    simp only [Prod.mk.injEq]
    tauto
  rw [mem_groupbyAgg, hfilt]
  refine and_congr ?_ Iff.rfl
  simp only [List.mem_map, List.mem_filter, decide_eq_true_eq,
    Prod.mk.injEq]
  constructor
  · rintro ⟨r, ⟨hr, h2, h3⟩, h4, h5⟩
    exact ⟨r, hr, h2, h3, h4, h5⟩
  · rintro ⟨r, hr, h2, h3, h4, h5⟩
    exact ⟨r, ⟨hr, h2, h3⟩, h4, h5⟩

/-- Witness for C1 at the §8 example: both indices of the range (0, 0)
are valid for the example table, and the theorem produces the concrete
result. -/
theorem C1_witness :
    ∃ res, update_consommation_orientation exempleConso "floor-1"
        "lighting" (0, 0) = some res ∧
      (res.map Prod.fst).Nodup ∧
      (∀ o t, (o, t) ∈ res ↔
        ((∃ r ∈ exempleConso, r.niveau = "floor-1" ∧ r.usage = "lighting" ∧
            strLe "2024-01-01" r.date ∧ strLe r.date "2024-01-01" ∧
            r.orientation = o) ∧
         t = ((exempleConso.filter fun r => decide (r.niveau = "floor-1" ∧
                r.usage = "lighting" ∧ strLe "2024-01-01" r.date ∧
                strLe r.date "2024-01-01" ∧ r.orientation = o)).map
              fun r => r.consommation).sum)) :=
  C1_consommation_par_orientation.1 exempleConso "floor-1" "lighting" 0 0
    "2024-01-01" "2024-01-01" (by decide) (by decide)

/-!
## Loader and startup (C3, C4)
-/

/-- A concrete metadata record for witnesses. -/
def exempleMeta : Metadata :=
  ⟨2000, 150, 15230, 8120, 21, 420, "2024-01-01"⟩

/-- C3: the load is all-or-nothing.  A dataset is returned exactly when
all five reads succeed; on success it bundles the four record
collections and the metadata exactly as read; on any failure no dataset
is returned and the single reported message carries the underlying
cause. -/
theorem C3_chargement_tout_ou_rien :
    ∀ (rc : Except String (List ConsRow))
      (rp : Except String (List ProdRow))
      (rt : Except String (List TempRow))
      (rco : Except String (List Co2Row)) (rm : Except String Metadata),
      ((charger_donnees rc rp rt rco rm).1.isSome = true ↔
        ((∃ x, rc = .ok x) ∧ (∃ x, rp = .ok x) ∧ (∃ x, rt = .ok x) ∧
         (∃ x, rco = .ok x) ∧ (∃ x, rm = .ok x))) ∧
      (∀ ds, (charger_donnees rc rp rt rco rm).1 = some ds →
        rc = .ok ds.consommation ∧ rp = .ok ds.production ∧
        rt = .ok ds.temperature ∧ rco = .ok ds.co2 ∧
        rm = .ok ds.metadata) ∧
      ((charger_donnees rc rp rt rco rm).1 = none →
        ∃ e, (rc = .error e ∨ rp = .error e ∨ rt = .error e ∨
            rco = .error e ∨ rm = .error e) ∧
          (charger_donnees rc rp rt rco rm).2 = [chargementErreurMsg e]) := by
  intro rc rp rt rco rm
  rcases rc with e | dfc
  · exact ⟨by simp [charger_donnees], by simp [charger_donnees],
      fun _ => ⟨e, Or.inl rfl, rfl⟩⟩
  rcases rp with e | dfp
  · exact ⟨by simp [charger_donnees], by simp [charger_donnees],
      fun _ => ⟨e, Or.inr (Or.inl rfl), rfl⟩⟩
  rcases rt with e | dft
  · exact ⟨by simp [charger_donnees], by simp [charger_donnees],
      fun _ => ⟨e, Or.inr (Or.inr (Or.inl rfl)), rfl⟩⟩
  rcases rco with e | dfco
  · exact ⟨by simp [charger_donnees], by simp [charger_donnees],
      fun _ => ⟨e, Or.inr (Or.inr (Or.inr (Or.inl rfl))), rfl⟩⟩
  rcases rm with e | md
  · exact ⟨by simp [charger_donnees], by simp [charger_donnees],
      fun _ => ⟨e, Or.inr (Or.inr (Or.inr (Or.inr rfl))), rfl⟩⟩
  refine ⟨by simp [charger_donnees], ?_, by simp [charger_donnees]⟩
  intro ds hds
  have hmk : Dataset.mk dfc dfp dft dfco md = ds := by
    simpa [charger_donnees] using hds
  subst hmk
  exact ⟨rfl, rfl, rfl, rfl, rfl⟩

/-- Witness for C3: a failing consumption read yields no dataset and the
reported line carries the cause. -/
theorem C3_witness :
    ∃ e, ((Except.error "fichier manquant" :
          Except String (List ConsRow)) = .error e ∨
        (Except.ok [] : Except String (List ProdRow)) = .error e ∨
        (Except.ok [] : Except String (List TempRow)) = .error e ∨
        (Except.ok [] : Except String (List Co2Row)) = .error e ∨
        (Except.ok exempleMeta : Except String Metadata) = .error e) ∧
      (charger_donnees (.error "fichier manquant") (.ok []) (.ok [])
          (.ok []) (.ok exempleMeta)).2 = [chargementErreurMsg e] :=
  (C3_chargement_tout_ou_rien (.error "fichier manquant") (.ok [])
    (.ok []) (.ok []) (.ok exempleMeta)).2.2 rfl

/-- C4: when the loader fails, `main` prints the error and returns
before building the map or the dashboard and before launching the
server — no query callback is ever registered or invoked. -/
theorem C4_echec_chargement_sans_service :
    ∀ (rc : Except String (List ConsRow))
      (rp : Except String (List ProdRow))
      (rt : Except String (List TempRow))
      (rco : Except String (List Co2Row)) (rm : Except String Metadata),
      (charger_donnees rc rp rt rco rm).1 = none →
      main_fn (charger_donnees rc rp rt rco rm).1 =
          [MainStep.printErreur] ∧
        MainStep.creerTableau ∉ main_fn (charger_donnees rc rp rt rco rm).1 ∧
        MainStep.runServer ∉ main_fn (charger_donnees rc rp rt rco rm).1 := by
  intro rc rp rt rco rm h
  rw [h]
  exact ⟨rfl, by decide, by decide⟩

/-- Witness for C4: with a failing production read, `main` only prints
the error. -/
theorem C4_witness :
    main_fn (charger_donnees (.ok exempleConso) (.error "csv corrompu")
        (.ok []) (.ok []) (.ok exempleMeta)).1 = [MainStep.printErreur] ∧
      MainStep.creerTableau ∉ main_fn (charger_donnees (.ok exempleConso)
        (.error "csv corrompu") (.ok []) (.ok []) (.ok exempleMeta)).1 ∧
      MainStep.runServer ∉ main_fn (charger_donnees (.ok exempleConso)
        (.error "csv corrompu") (.ok []) (.ok []) (.ok exempleMeta)).1 :=
  C4_echec_chargement_sans_service (.ok exempleConso)
    (.error "csv corrompu") (.ok []) (.ok []) (.ok exempleMeta) rfl

/-!
## Temperature query (C5)
-/

/-- When both clamped date bounds exist, the temperature callback
returns the filtered and grouped rows for those bounds. -/
theorem update_temperature_some (df : List TempRow) (niveau : String)
    (i j : ℕ) (d0 d1 : String)
    (h0 : borneDate (datesTriees (df.map fun r => r.date)) i = some d0)
    (h1 : borneDate (datesTriees (df.map fun r => r.date)) j = some d1) :
    update_temperature df niveau (i, j) =
      some (temperature_core df niveau d0 d1) := by
  unfold update_temperature
  simp only [h0, h1]

/-- Membership in the temperature aggregate, phrased over the raw
records: one row per (date, orientation) pair present among the matching
records, valued at the arithmetic mean (sum divided by count). -/
theorem mem_temperature_core (df : List TempRow) (niveau d0 d1 : String)
    (d o : String) (v : ℚ) :
    ((d, o), v) ∈ temperature_core df niveau d0 d1 ↔
      ((∃ r ∈ df, r.niveau = niveau ∧ strLe d0 r.date ∧ strLe r.date d1 ∧
          r.date = d ∧ r.orientation = o) ∧
       v = ((df.filter fun r => decide (r.niveau = niveau ∧
              strLe d0 r.date ∧ strLe r.date d1 ∧ r.date = d ∧
              r.orientation = o)).map fun r => r.temperature).sum /
           (((df.filter fun r => decide (r.niveau = niveau ∧
              strLe d0 r.date ∧ strLe r.date d1 ∧ r.date = d ∧
              r.orientation = o)).length : ℚ))) := by
  unfold temperature_core groupbyMean
  have hfilt : ((df.filter fun r => decide (r.niveau = niveau ∧
      strLe d0 r.date ∧ strLe r.date d1)).filter fun r =>
      decide ((r.date, r.orientation) = (d, o))) = df.filter fun r =>
      decide (r.niveau = niveau ∧ strLe d0 r.date ∧ strLe r.date d1 ∧
        r.date = d ∧ r.orientation = o) := by
    rw [filter_decide_filter_decide]
    apply List.filter_congr
    intro a _
    rw [decide_eq_decide]
    simp only [Prod.mk.injEq]
    tauto
  rw [mem_groupbyAgg, hfilt]
  refine and_congr ?_ Iff.rfl
  simp only [List.mem_map, List.mem_filter, decide_eq_true_eq,
    Prod.mk.injEq]
  constructor
  · rintro ⟨r, ⟨hr, h2, h3, h4⟩, h5, h6⟩
    exact ⟨r, hr, h2, h3, h4, h5, h6⟩
  · rintro ⟨r, hr, h2, h3, h4, h5, h6⟩
    exact ⟨r, ⟨hr, h2, h3, h4⟩, h5, h6⟩

/-- C5: for every temperature table, level and slider range whose
clamped bounds exist, the temperature query returns one row per
(date, orientation) pair present among the records matching the level
and the inclusive date range, valued at the arithmetic mean — sum over
count, not the sum — of the matching readings. -/
theorem C5_temperature_moyenne :
    ∀ (df : List TempRow) (niveau : String) (i j : ℕ) (d0 d1 : String),
      borneDate (datesTriees (df.map fun r => r.date)) i = some d0 →
      borneDate (datesTriees (df.map fun r => r.date)) j = some d1 →
      ∃ res, update_temperature df niveau (i, j) = some res ∧
        (res.map Prod.fst).Nodup ∧
        ∀ d o v, ((d, o), v) ∈ res ↔
          ((∃ r ∈ df, r.niveau = niveau ∧ strLe d0 r.date ∧
              strLe r.date d1 ∧ r.date = d ∧ r.orientation = o) ∧
           v = ((df.filter fun r => decide (r.niveau = niveau ∧
                  strLe d0 r.date ∧ strLe r.date d1 ∧ r.date = d ∧
                  r.orientation = o)).map fun r => r.temperature).sum /
               (((df.filter fun r => decide (r.niveau = niveau ∧
                  strLe d0 r.date ∧ strLe r.date d1 ∧ r.date = d ∧
                  r.orientation = o)).length : ℚ))) := by
  intro df niveau i j d0 d1 h0 h1
  refine ⟨temperature_core df niveau d0 d1,
    update_temperature_some df niveau i j d0 d1 h0 h1, ?_, ?_⟩
  · unfold temperature_core groupbyMean
    exact groupbyAgg_keys_nodup _ _ _ _
  · intro d o v
    exact mem_temperature_core df niveau d0 d1 d o v

/-- A two-reading temperature table: both readings on the same day,
level and orientation, at 20 and 22 degrees (mean 21). -/
def exempleTemp : List TempRow :=
  [⟨"floor-1", "N", "2024-01-01", 20⟩,
   ⟨"floor-1", "N", "2024-01-01", 22⟩]

/-- Witness for C5: on the two-reading table the clamped range (0, 0) is
valid and the theorem describes the returned grouping. -/
theorem C5_witness :
    ∃ res, update_temperature exempleTemp "floor-1" (0, 0) = some res ∧
      (res.map Prod.fst).Nodup ∧
      ∀ d o v, ((d, o), v) ∈ res ↔
        ((∃ r ∈ exempleTemp, r.niveau = "floor-1" ∧
            strLe "2024-01-01" r.date ∧ strLe r.date "2024-01-01" ∧
            r.date = d ∧ r.orientation = o) ∧
         v = ((exempleTemp.filter fun r => decide (r.niveau = "floor-1" ∧
                strLe "2024-01-01" r.date ∧ strLe r.date "2024-01-01" ∧
                r.date = d ∧ r.orientation = o)).map
              fun r => r.temperature).sum /
             (((exempleTemp.filter fun r => decide (r.niveau = "floor-1" ∧
                strLe "2024-01-01" r.date ∧ strLe r.date "2024-01-01" ∧
                r.date = d ∧ r.orientation = o)).length : ℚ))) :=
  C5_temperature_moyenne exempleTemp "floor-1" 0 0 "2024-01-01"
    "2024-01-01" (by decide) (by decide)

/-!
## Slider-index clamping (C10)
-/

/-- Membership in the sorted distinct dates is membership in the raw
column. -/
theorem mem_datesTriees (l : List String) (d : String) :
    d ∈ datesTriees l ↔ d ∈ l := by
  unfold datesTriees
  rw [(List.perm_insertionSort strLe _).mem_iff, List.mem_dedup]

/-- On a nonempty date list the clamped bound always exists: an
in-range index selects that date, an out-of-range one the last date. -/
theorem borneDate_isSome (dates : List String) (i : ℕ)
    (h : dates ≠ []) : (borneDate dates i).isSome = true := by
  unfold borneDate
  split
  · next hlt => simp [List.getElem?_eq_getElem hlt]
  · simp [List.getLast?_isSome, h]

/-- C10: an index at least the number of distinct dates is clamped to
the last available date, and — under the documented invariant that the
production and temperature tables carry the same date set as the
consumption table — every index pair within the consumption table's date
count makes both clamped callbacks return a chart instead of failing. -/
theorem C10_bornes_glissiere :
    (∀ (dates : List String) (i : ℕ), dates.length ≤ i →
      borneDate dates i = dates.getLast?) ∧
    (∀ (dfC : List ConsRow) (dfP : List ProdRow) (dfT : List TempRow)
      (niveau : String) (i j : ℕ),
      (∀ d, d ∈ dfP.map (fun r => r.date) ↔ d ∈ dfC.map (fun r => r.date)) →
      (∀ d, d ∈ dfT.map (fun r => r.date) ↔ d ∈ dfC.map (fun r => r.date)) →
      i < (consDates dfC).length → j < (consDates dfC).length →
      (update_production_pv dfP (i, j)).isSome = true ∧
      (update_temperature dfT niveau (i, j)).isSome = true) := by
  constructor
  · intro dates i h
    unfold borneDate
    rw [if_neg (not_lt.mpr h)]
  · intro dfC dfP dfT niveau i j hP hT hi hj
    have hd : (consDates dfC)[i] ∈ consDates dfC := List.getElem_mem hi
    have hdC : (consDates dfC)[i] ∈ dfC.map (fun r => r.date) :=
      (mem_datesTriees _ _).mp hd
    have hPne : datesTriees (dfP.map fun r => r.date) ≠ [] := by
      intro hnil
      have hmem := (mem_datesTriees (dfP.map fun r => r.date) _).mpr
        ((hP _).mpr hdC)
      rw [hnil] at hmem
      exact absurd hmem (List.not_mem_nil _)
    have hTne : datesTriees (dfT.map fun r => r.date) ≠ [] := by
      intro hnil
      have hmem := (mem_datesTriees (dfT.map fun r => r.date) _).mpr
        ((hT _).mpr hdC)
      rw [hnil] at hmem
      exact absurd hmem (List.not_mem_nil _)
    constructor
    · obtain ⟨d0, hd0⟩ := Option.isSome_iff_exists.mp
        (borneDate_isSome _ i hPne)
      obtain ⟨d1, hd1⟩ := Option.isSome_iff_exists.mp
        (borneDate_isSome _ j hPne)
      unfold update_production_pv
      simp only [hd0, hd1, Option.isSome_some]
    · obtain ⟨d0, hd0⟩ := Option.isSome_iff_exists.mp
        (borneDate_isSome _ i hTne)
      obtain ⟨d1, hd1⟩ := Option.isSome_iff_exists.mp
        (borneDate_isSome _ j hTne)
      unfold update_temperature
      simp only [hd0, hd1, Option.isSome_some]

/-- A one-day production table sharing the §8 example's date. -/
def exempleProd : List ProdRow :=
  [⟨"2024-01-01", 3⟩]

/-- Witness for C10: on the example tables, whose date sets agree, the
in-range pair (0, 0) makes both clamped callbacks succeed. -/
theorem C10_witness :
    (update_production_pv exempleProd (0, 0)).isSome = true ∧
    (update_temperature exempleTemp "floor-1" (0, 0)).isSome = true :=
  C10_bornes_glissiere.2 exempleConso exempleProd exempleTemp "floor-1"
    0 0 (by intro d; simp [exempleConso, exempleProd])
    (by intro d; simp [exempleConso, exempleTemp]) (by decide) (by decide)

/-!
## Unknown filter values (C6)
-/

/-- An unknown level or usage makes the consumption filter empty. -/
theorem filtre_consommation_inconnu (df : List ConsRow)
    (niveau usage d0 d1 : String)
    (h : (niveau ∉ df.map fun r => r.niveau) ∨
      (usage ∉ df.map fun r => r.usage)) :
    filtre_consommation df niveau usage d0 d1 = [] := by
  unfold filtre_consommation
  rw [List.filter_eq_nil_iff]
  intro r hr
  simp only [decide_eq_true_eq]
  rintro ⟨h1, h2, -, -⟩
  rcases h with h | h
  · exact h (List.mem_map.mpr ⟨r, hr, h1⟩)
  · exact h (List.mem_map.mpr ⟨r, hr, h2⟩)

/-- C6: with a valid slider range the consumption queries are defined
for *every* level and usage string, and an unknown level or usage —
one occurring nowhere in the table — yields the empty result rather than
an error, for both consumption callbacks. -/
theorem C6_valeurs_inconnues :
    ∀ (df : List ConsRow) (niveau usage : String) (i j : ℕ)
      (d0 d1 : String),
      (consDates df)[i]? = some d0 →
      (consDates df)[j]? = some d1 →
      (update_consommation_orientation df niveau usage (i, j)).isSome =
          true ∧
        (((niveau ∉ df.map fun r => r.niveau) ∨
            (usage ∉ df.map fun r => r.usage)) →
          update_consommation_orientation df niveau usage (i, j) =
            some []) ∧
        (((niveau ∉ df.map fun r => r.niveau) ∨
            (usage ∉ df.map fun r => r.usage)) →
          update_evolution_consommation df niveau usage = []) := by
  intro df niveau usage i j d0 d1 h0 h1
  refine ⟨?_, ?_, ?_⟩
  · rw [update_consommation_orientation_some df niveau usage i j d0 d1
      h0 h1]
    rfl
  · intro h
    rw [update_consommation_orientation_some df niveau usage i j d0 d1
      h0 h1]
    unfold conso_orientation_core
    rw [filtre_consommation_inconnu df niveau usage d0 d1 h]
    rfl
  · intro h
    unfold update_evolution_consommation
    have hfil : (df.filter fun r => decide (r.niveau = niveau ∧
        r.usage = usage)) = [] := by
      rw [List.filter_eq_nil_iff]
      intro r hr
      simp only [decide_eq_true_eq]
      rintro ⟨h1, h2⟩
      rcases h with h | h
      · exact h (List.mem_map.mpr ⟨r, hr, h1⟩)
      · exact h (List.mem_map.mpr ⟨r, hr, h2⟩)
    rw [hfil]
    rfl

/-- Witness for C6: level floor-9 occurs nowhere in the example table;
both consumption queries return an empty result for it. -/
theorem C6_witness :
    (update_consommation_orientation exempleConso "floor-9" "lighting"
        (0, 0)).isSome = true ∧
      update_consommation_orientation exempleConso "floor-9" "lighting"
        (0, 0) = some [] ∧
      update_evolution_consommation exempleConso "floor-9" "lighting" =
        [] := by
  obtain ⟨h1, h2, h3⟩ := C6_valeurs_inconnues exempleConso "floor-9"
    "lighting" 0 0 "2024-01-01" "2024-01-01" (by decide) (by decide)
  have hni : ("floor-9" ∉ exempleConso.map fun r => r.niveau) ∨
      ("lighting" ∉ exempleConso.map fun r => r.usage) :=
    Or.inl (by decide)
  exact ⟨h1, h2 hni, h3 hni⟩

/-!
## Empty ranges and empty datasets (C7)
-/

/-- A one-record consumption table whose only date is 2024-01-02, so
the one-day range 2024-01-01..2024-01-01 lies strictly outside its
span. -/
def horsPlageConso : List ConsRow :=
  [⟨3, "Zone Nord", "floor-1", "N", "lighting", "2024-01-02", 9⟩]

/-- C7 as stated is false: the time-series aggregation is one of the
aggregation queries, yet for a date range strictly outside the table's
span it still returns rows, because it applies no date filter. -/
theorem C7_counterexample :
    (∀ r ∈ horsPlageConso, strLt r.date "2024-01-01" ∨
      strLt "2024-01-01" r.date) ∧
    update_evolution_consommation horsPlageConso "floor-1" "lighting" ≠
      [] := by
  constructor
  · decide
  · norm_num +decide [update_evolution_consommation, groupbySum,
      groupbyAgg, horsPlageConso, List.filter, List.dedup, List.pwFilter,
      List.insertionSort, List.orderedInsert]

/-- C7 amended: the three date-filtered aggregations — consumption by
orientation, production, temperature — return an empty result, without
error, for any range strictly outside the table's dates and on an empty
table; an empty filtered group never yields a synthesized zero or NaN
row; the time-series query, which ignores the date range, is empty on an
empty table but exempt from the out-of-range property. -/
theorem C7_plage_vide :
    ∀ (dfC : List ConsRow) (dfP : List ProdRow) (dfT : List TempRow)
      (niveau usage d0 d1 : String),
      ((∀ r ∈ dfC, strLt r.date d0 ∨ strLt d1 r.date) →
        conso_orientation_core dfC niveau usage d0 d1 = []) ∧
      ((∀ r ∈ dfP, strLt r.date d0 ∨ strLt d1 r.date) →
        production_core dfP d0 d1 = []) ∧
      ((∀ r ∈ dfT, strLt r.date d0 ∨ strLt d1 r.date) →
        temperature_core dfT niveau d0 d1 = []) ∧
      conso_orientation_core [] niveau usage d0 d1 = [] ∧
      production_core [] d0 d1 = [] ∧
      temperature_core [] niveau d0 d1 = [] ∧
      update_evolution_consommation [] niveau usage = [] ∧
      (∀ o, (∀ r ∈ dfC, ¬(r.niveau = niveau ∧ r.usage = usage ∧
          strLe d0 r.date ∧ strLe r.date d1 ∧ r.orientation = o)) →
        o ∉ (conso_orientation_core dfC niveau usage d0 d1).map
          Prod.fst) := by
  intro dfC dfP dfT niveau usage d0 d1
  have hors : ∀ (d : String), (strLt d d0 ∨ strLt d1 d) →
      ¬(strLe d0 d ∧ strLe d d1) := by
    rintro d (h | h) ⟨hle0, hle1⟩
    · exact absurd hle0 (not_le.mpr h)
    · exact absurd hle1 (not_le.mpr h)
  refine ⟨?_, ?_, ?_, rfl, rfl, rfl, rfl, ?_⟩
  · intro h
    unfold conso_orientation_core
    have hfil : filtre_consommation dfC niveau usage d0 d1 = [] := by
      unfold filtre_consommation
      rw [List.filter_eq_nil_iff]
      intro r hr
      simp only [decide_eq_true_eq]
      rintro ⟨-, -, h3, h4⟩
      exact hors r.date (h r hr) ⟨h3, h4⟩
    rw [hfil]
    rfl
  · intro h
    unfold production_core
    rw [List.filter_eq_nil_iff]
    intro r hr
    simp only [decide_eq_true_eq]
    rintro ⟨h3, h4⟩
    exact hors r.date (h r hr) ⟨h3, h4⟩
  · intro h
    unfold temperature_core
    have hfil : (dfT.filter fun r => decide (r.niveau = niveau ∧
        strLe d0 r.date ∧ strLe r.date d1)) = [] := by
      rw [List.filter_eq_nil_iff]
      intro r hr
      simp only [decide_eq_true_eq]
      rintro ⟨-, h3, h4⟩
      exact hors r.date (h r hr) ⟨h3, h4⟩
    rw [hfil]
    rfl
  · intro o hno hmem
    obtain ⟨p, hp, hfst⟩ := List.mem_map.mp hmem
    have hpair : (p.1, p.2) ∈ conso_orientation_core dfC niveau usage
        d0 d1 := by
      cases p
      exact hp
    obtain ⟨⟨r, hr, h1, h2, h3, h4, h5⟩, -⟩ :=
      (mem_conso_orientation_core dfC niveau usage d0 d1 p.1 p.2).mp hpair
    exact hno r hr ⟨h1, h2, h3, h4, hfst ▸ h5⟩

/-- Witness for C7 amended: the out-of-span range 2024-01-01..2024-01-01
empties the filtered consumption aggregate, and the empty-table results
are empty for the other queries. -/
theorem C7_witness :
    conso_orientation_core horsPlageConso "floor-1" "lighting"
        "2024-01-01" "2024-01-01" = [] ∧
      production_core [] "2024-01-01" "2024-01-01" = [] ∧
      temperature_core [] "floor-1" "2024-01-01" "2024-01-01" = [] ∧
      update_evolution_consommation [] "floor-1" "lighting" = [] := by
  obtain ⟨h1, -, -, -, h5, h6, h7, -⟩ := C7_plage_vide horsPlageConso []
    [] "floor-1" "lighting" "2024-01-01" "2024-01-01"
  exact ⟨h1 (by decide), h5, h6, h7⟩

/-!
## Determinism and absence of mutation (C8, C9)

The Dash callbacks close over the data frames extracted from the loaded
dict (app.py lines 168-174) and only read them; the runners below thread
the process state (the loaded `Dataset`) explicitly, pairing the state
each callback leaves behind with the value it returns.
-/

/-- `update_consommation_orientation` as a state-threading action: it
reads `donnees["consommation"]` and writes nothing. -/
def run_update_consommation_orientation (ds : Dataset)
    (niveau usage : String) (periode : ℕ × ℕ) :
    Dataset × Option (List (String × ℚ)) :=
  (ds, update_consommation_orientation ds.consommation niveau usage
    periode)

/-- `update_evolution_consommation` as a state-threading action. -/
def run_update_evolution_consommation (ds : Dataset)
    (niveau usage : String) : Dataset × List ((String × String) × ℚ) :=
  (ds, update_evolution_consommation ds.consommation niveau usage)

/-- `update_production_pv` as a state-threading action: it reads
`donnees["production"]` and writes nothing. -/
def run_update_production_pv (ds : Dataset) (periode : ℕ × ℕ) :
    Dataset × Option (List ProdRow) :=
  (ds, update_production_pv ds.production periode)

/-- `update_temperature` as a state-threading action: it reads
`donnees["temperature"]` and writes nothing. -/
def run_update_temperature (ds : Dataset) (niveau : String)
    (periode : ℕ × ℕ) : Dataset × Option (List ((String × String) × ℚ)) :=
  (ds, update_temperature ds.temperature niveau periode)

/-- C8: running any of the four queries a second time, from the state
the first run left behind and with the same arguments, returns the same
value — the queries are deterministic functions of the dataset and the
filter parameters, with no hidden state. -/
theorem C8_requetes_deterministes :
    ∀ (ds : Dataset) (niveau usage : String) (periode : ℕ × ℕ),
      (run_update_consommation_orientation
          (run_update_consommation_orientation ds niveau usage periode).1
          niveau usage periode).2 =
        (run_update_consommation_orientation ds niveau usage periode).2 ∧
      (run_update_evolution_consommation
          (run_update_evolution_consommation ds niveau usage).1 niveau
          usage).2 =
        (run_update_evolution_consommation ds niveau usage).2 ∧
      (run_update_production_pv (run_update_production_pv ds periode).1
          periode).2 =
        (run_update_production_pv ds periode).2 ∧
      (run_update_temperature (run_update_temperature ds niveau
          periode).1 niveau periode).2 =
        (run_update_temperature ds niveau periode).2 :=
  fun _ _ _ _ => ⟨rfl, rfl, rfl, rfl⟩

/-- C9: no query mutates the dataset: each callback's post-state is the
pre-state — every record collection and the metadata are left
unchanged — and its value is a freshly computed result from the tables
it reads. -/
theorem C9_sans_mutation :
    ∀ (ds : Dataset) (niveau usage : String) (periode : ℕ × ℕ),
      (run_update_consommation_orientation ds niveau usage periode).1 =
          ds ∧
      (run_update_evolution_consommation ds niveau usage).1 = ds ∧
      (run_update_production_pv ds periode).1 = ds ∧
      (run_update_temperature ds niveau periode).1 = ds ∧
      (run_update_temperature ds niveau periode).1.metadata =
        ds.metadata :=
  fun _ _ _ _ => ⟨rfl, rfl, rfl, rfl, rfl⟩
